import Mathlib

/-!
Shallow embedding of the Concordium donation contract
(src/donation/src/lib.rs) and proofs about its entrypoints
`donate`, `close`, `open` and `view`.

Machine types are modelled as follows: `Timestamp` (milliseconds since
epoch) and `Amount` (micro CCD) as `Nat`; `AccountAddress` as `Nat`;
a `DonationLocation` is a `String`, exactly as in the source
(`type DonationLocation = String`).  The contract never performs
arithmetic on the `u32` field `number_of_donors`, so it is a plain `Nat`.
Host-supplied context (slot time, caller, parameter bytes) becomes
explicit arguments; a parameter that fails to deserialize is `none`.
-/

namespace Donation

abbrev Timestamp := Nat

abbrev Amount := Nat

abbrev AccountAddress := Nat

abbrev DonationLocation := String

/-- Mirrors `enum StateOfDonation { Open, Closed }`. -/
inductive StateOfDonation
  | Open
  | Closed
  deriving DecidableEq

/-- Mirrors `struct State` of the contract. -/
structure State where
  number_of_donors : Nat
  state_of_donation : StateOfDonation
  donation_locations : List DonationLocation
  end_time : Timestamp
  deriving DecidableEq

/-- Mirrors `enum Error` of the contract (the typed `donate` errors). -/
inductive Error
  | ParseParamsError
  | DonationHasEnded
  | DonationClosed
  | InvalidDonationLocation
  deriving DecidableEq

/-- Host-level transfer failures of `invoke_transfer` (the receiving
account does not exist, or the balance is insufficient). -/
inductive TransferError
  | AmountTooLarge
  | MissingAccount
  deriving DecidableEq

/-- Rejections of `close` and `open` (`ReceiveResult`): a failed
`ensure!` guard, or a propagated transfer error (`?` on
`invoke_transfer`). -/
inductive Reject
  | assertionFailed
  | transferError (e : TransferError)
  deriving DecidableEq

/-- Mirrors Concordium `Address`: an account or a contract. -/
inductive Address
  | account (addr : AccountAddress)
  | contract (index : Nat)
  deriving DecidableEq

/-- Mirrors `Address::matches_account`. -/
def Address.matches_account : Address → AccountAddress → Bool
  | Address.account a, o => a == o
  | Address.contract _, _ => false

/-- The mutable host view seen by a receive function: the contract
state, the contract's self-held balance, and the list of outbound
transfers issued so far (as recorded by the test host). -/
structure Host where
  state : State
  self_balance : Amount
  transfers : List (AccountAddress × Amount)
  deriving DecidableEq

/-- Mirrors `Iterator::position`: index of the first element satisfying
the predicate. -/
def position (p : DonationLocation → Bool) : List DonationLocation → Option Nat
  | [] => none
  | x :: xs => if p x then some 0 else (position p xs).map (fun i => i + 1)

/-- Mirrors `fn donate`.  The host state is never mutated by the body,
so the success case returns the input state unchanged; the attached
amount is the unused `_amount` argument of the source. -/
def donate (st : State) (slot_time : Timestamp) (param : Option DonationLocation)
    (_amount : Amount) : Except Error State :=
  if st.end_time < slot_time then
    Except.error Error.DonationHasEnded
  else if st.state_of_donation = StateOfDonation.Closed then
    Except.error Error.DonationClosed
  else
    match param with
    | none => Except.error Error.ParseParamsError
    | some donation_location =>
      match position (fun location => location == donation_location)
          st.donation_locations with
      | some _ => Except.ok st
      | none => Except.error Error.InvalidDonationLocation

/-- Mirrors the host primitive `invoke_transfer` onto account
`to`: it fails if the account does not exist or the balance is
insufficient, and otherwise debits the balance and records the
transfer.  `existing_accounts` is the host's set of accounts. -/
def invoke_transfer (existing_accounts : List AccountAddress) (h : Host)
    (receiver : AccountAddress) (amount : Amount) : Except TransferError Host :=
  if existing_accounts.contains receiver = false then
    Except.error TransferError.MissingAccount
  else if h.self_balance < amount then
    Except.error TransferError.AmountTooLarge
  else
    Except.ok { h with
      self_balance := h.self_balance - amount,
      transfers := h.transfers ++ [(receiver, amount)] }

/-- Mirrors `fn close`: guards (owner, phase Open), then sets the phase
to Closed, reads the self balance and transfers all of it to the
owner. -/
def close (existing_accounts : List AccountAddress) (owner : AccountAddress)
    (sender : Address) (h : Host) : Except Reject Host :=
  if sender.matches_account owner then
    if h.state.state_of_donation = StateOfDonation.Open then
      let h1 : Host :=
        { h with state := { h.state with state_of_donation := StateOfDonation.Closed } }
      let balance := h1.self_balance
      match invoke_transfer existing_accounts h1 owner balance with
      | Except.ok h2 => Except.ok h2
      | Except.error e => Except.error (Reject.transferError e)
    else Except.error Reject.assertionFailed
  else Except.error Reject.assertionFailed

/-- Mirrors `fn open` (renamed: `open` is a Lean keyword): guards
(owner, phase Closed), then sets the phase to Open. -/
def open_campaign (owner : AccountAddress) (sender : Address) (h : Host) :
    Except Reject Host :=
  if sender.matches_account owner then
    if h.state.state_of_donation = StateOfDonation.Closed then
      Except.ok { h with state := { h.state with state_of_donation := StateOfDonation.Open } }
    else Except.error Reject.assertionFailed
  else Except.error Reject.assertionFailed

/-- Mirrors `struct DonationView`. -/
structure DonationView where
  number_donors : Nat
  state_donation : StateOfDonation
  time : Timestamp
  balance : Amount
  deriving DecidableEq

/-- Mirrors `fn view`: a pure read of the state and the self balance
(the source always returns `Ok` and never mutates). -/
def view (h : Host) : DonationView :=
  { number_donors := h.state.number_of_donors
    state_donation := h.state.state_of_donation
    time := h.state.end_time
    balance := h.self_balance }

/-- Modelled from the spec: the host commits all-or-nothing per
invocation, so on an error result every mutation of the invocation is
discarded and the pre-call value is kept.  This is host behaviour, not
contract code. -/
def commit {ε α : Type} (pre : α) : Except ε α → α
  | Except.ok a => a
  | Except.error _ => pre

/-! Helper lemmas shared by the claim theorems. -/

/-- A `position` search for `s` comes back empty exactly when the list
does not contain `s`. -/
lemma position_eq_none_iff (l : List DonationLocation) (s : DonationLocation) :
    position (fun x => x == s) l = none ↔ l.contains s = false := by
  induction l with
  | nil => simp [position]
  | cons x xs ih =>
    by_cases hx : x = s
    · simp [position, hx]
    · simp [position, hx, List.contains_cons, ih, Ne.symm hx]

/-- Committing an error keeps the pre-call value. -/
lemma commit_error {ε α : Type} (pre : α) (e : ε) :
    commit pre (Except.error e : Except ε α) = pre := rfl

/-- Committing a success keeps the new value. -/
lemma commit_ok {ε α : Type} (pre a : α) :
    commit pre (Except.ok a : Except ε α) = a := rfl

/-- Whatever `donate` returns, the committed state is the input state:
the body of `donate` contains no mutation, and errors are rolled back. -/
lemma commit_donate (st : State) (t : Timestamp) (p : Option DonationLocation)
    (a : Amount) : commit st (donate st t p a) = st := by
  unfold donate
  split
  · rfl
  · split
    · rfl
    · split
      · rfl
      · split <;> rfl

/-! The claims. -/

/-- C1: for every state with phase Open and caller equal to the owner
(an existing account), `close` succeeds, sets the phase to Closed, and
issues exactly one transfer of the entire contract balance to the
owner, leaving the contract balance at zero. -/
theorem close_by_owner_on_open (existing_accounts : List AccountAddress)
    (owner : AccountAddress) (h : Host)
    (hopen : h.state.state_of_donation = StateOfDonation.Open)
    (hacct : existing_accounts.contains owner = true) :
    close existing_accounts owner (Address.account owner) h =
      Except.ok { state := { h.state with state_of_donation := StateOfDonation.Closed },
                  self_balance := 0,
                  transfers := h.transfers ++ [(owner, h.self_balance)] } := by
  have hmem : owner ∈ existing_accounts := by simpa using hacct
  simp [close, Address.matches_account, invoke_transfer, hopen, hmem]

/-- Witness for C1 at a concrete host: owner 0, balance 100, phase
Open, allow-list from the repository's tests. -/
theorem close_by_owner_on_open_witness :
    close [0] 0 (Address.account 0)
        ⟨⟨0, StateOfDonation.Open, ["GE", "CM", "IT", "FR"], 10000⟩, 100, []⟩ =
      Except.ok ⟨⟨0, StateOfDonation.Closed, ["GE", "CM", "IT", "FR"], 10000⟩, 0, [(0, 100)]⟩ := by
  have := close_by_owner_on_open [0] 0
    ⟨⟨0, StateOfDonation.Open, ["GE", "CM", "IT", "FR"], 10000⟩, 100, []⟩
    (by rfl) (by decide)
  simpa using this

/-- C2: `donate` performs its checks in a fixed order and the first
failing check determines the error: past deadline gives
`DonationHasEnded`; otherwise a Closed phase gives `DonationClosed`;
otherwise a parse failure gives `ParseParamsError`; otherwise a
location outside the allow-list gives `InvalidDonationLocation`. -/
theorem donate_error_order (st : State) (t : Timestamp)
    (p : Option DonationLocation) (a : Amount) :
    (st.end_time < t → donate st t p a = Except.error Error.DonationHasEnded)
    ∧ (¬ st.end_time < t → st.state_of_donation = StateOfDonation.Closed →
        donate st t p a = Except.error Error.DonationClosed)
    ∧ (¬ st.end_time < t → st.state_of_donation = StateOfDonation.Open →
        p = none → donate st t p a = Except.error Error.ParseParamsError)
    ∧ (∀ loc, ¬ st.end_time < t → st.state_of_donation = StateOfDonation.Open →
        p = some loc → st.donation_locations.contains loc = false →
        donate st t p a = Except.error Error.InvalidDonationLocation) := by
  refine ⟨fun hlt => ?_, fun hle hcl => ?_, fun hle hop hp => ?_,
    fun loc hle hop hp hloc => ?_⟩
  · simp [donate, hlt]
  · simp [donate, hle, hcl]
  · simp [donate, hle, hop, hp]
  · simp [donate, hle, hop, hp, (position_eq_none_iff st.donation_locations loc).mpr hloc]

/-- Witness for C2: each conjunct instantiated at a concrete input
exhibiting exactly that error. -/
theorem donate_error_order_witness :
    donate ⟨0, StateOfDonation.Open, ["GE", "CM", "IT", "FR"], 10000⟩ 20000
        (some "CM") 5 = Except.error Error.DonationHasEnded
    ∧ donate ⟨0, StateOfDonation.Closed, ["GE", "CM", "IT", "FR"], 10000⟩ 0
        (some "CM") 5 = Except.error Error.DonationClosed
    ∧ donate ⟨0, StateOfDonation.Open, ["GE", "CM", "IT", "FR"], 10000⟩ 0
        none 5 = Except.error Error.ParseParamsError
    ∧ donate ⟨0, StateOfDonation.Open, ["GE", "CM", "IT", "FR"], 10000⟩ 0
        (some "USA") 5 = Except.error Error.InvalidDonationLocation := by
  refine ⟨(donate_error_order _ 20000 _ 5).1 (by decide),
    (donate_error_order _ 0 _ 5).2.1 (by decide) rfl,
    (donate_error_order _ 0 _ 5).2.2.1 (by decide) rfl rfl,
    (donate_error_order _ 0 _ 5).2.2.2 "USA" (by decide) rfl rfl (by decide)⟩

/-- C3: for every state and every caller not matching the owner
account, both `close` and `open` fail with the authorization rejection
and the committed state is unchanged. -/
theorem nonowner_close_open_fail (existing_accounts : List AccountAddress)
    (owner : AccountAddress) (sender : Address) (h : Host)
    (hs : sender.matches_account owner = false) :
    close existing_accounts owner sender h = Except.error Reject.assertionFailed
    ∧ commit h (close existing_accounts owner sender h) = h
    ∧ open_campaign owner sender h = Except.error Reject.assertionFailed
    ∧ commit h (open_campaign owner sender h) = h := by
  simp [close, open_campaign, commit, hs]

/-- Witness for C3: sender is account 1, owner is account 0. -/
theorem nonowner_close_open_fail_witness :
    close [0] 0 (Address.account 1)
        ⟨⟨0, StateOfDonation.Open, ["GE", "CM", "IT", "FR"], 10000⟩, 100, []⟩ =
      Except.error Reject.assertionFailed
    ∧ open_campaign 0 (Address.account 1)
        ⟨⟨0, StateOfDonation.Open, ["GE", "CM", "IT", "FR"], 10000⟩, 100, []⟩ =
      Except.error Reject.assertionFailed := by
  have := nonowner_close_open_fail [0] 0 (Address.account 1)
    ⟨⟨0, StateOfDonation.Open, ["GE", "CM", "IT", "FR"], 10000⟩, 100, []⟩ (by decide)
  exact ⟨this.1, this.2.2.1⟩

/-- C4: for every location in the allow-list and every time at most the
deadline, with phase Open, `donate` succeeds and returns the input
state unchanged (no mutation at all, so `phase` and the allow-list are
untouched). -/
theorem donate_valid_location_succeeds (st : State) (t : Timestamp)
    (loc : DonationLocation) (a : Amount)
    (hle : ¬ st.end_time < t)
    (hop : st.state_of_donation = StateOfDonation.Open)
    (hloc : st.donation_locations.contains loc = true) :
    donate st t (some loc) a = Except.ok st := by
  have hpos : position (fun x => x == loc) st.donation_locations ≠ none := by
    intro hn
    rw [position_eq_none_iff] at hn
    rw [hloc] at hn
    exact Bool.noConfusion hn
  cases hp : position (fun x => x == loc) st.donation_locations with
  | none => exact absurd hp hpos
  | some i => simp [donate, hle, hop, hp]

/-- Witness for C4: the repository test scenario, donating from CM at
time 0 with deadline 10000. -/
theorem donate_valid_location_succeeds_witness :
    donate ⟨0, StateOfDonation.Open, ["GE", "CM", "IT", "FR"], 10000⟩ 0
        (some "CM") 100 =
      Except.ok ⟨0, StateOfDonation.Open, ["GE", "CM", "IT", "FR"], 10000⟩ :=
  donate_valid_location_succeeds ⟨0, StateOfDonation.Open, ["GE", "CM", "IT", "FR"], 10000⟩
    0 "CM" 100 (by decide) rfl (by decide)

/-- C5: when the transfer issued by `close` fails (here: the owner
account does not exist at the host), the whole invocation fails and
the committed state is the pre-call one, so the phase is still
Open. -/
theorem close_transfer_failure_atomic (existing_accounts : List AccountAddress)
    (owner : AccountAddress) (h : Host)
    (hopen : h.state.state_of_donation = StateOfDonation.Open)
    (hmiss : existing_accounts.contains owner = false) :
    close existing_accounts owner (Address.account owner) h =
      Except.error (Reject.transferError TransferError.MissingAccount)
    ∧ commit h (close existing_accounts owner (Address.account owner) h) = h
    ∧ (commit h (close existing_accounts owner (Address.account owner) h)).state.state_of_donation =
        StateOfDonation.Open := by
  have hnmem : owner ∉ existing_accounts := by simpa using hmiss
  refine ⟨?_, ?_, ?_⟩ <;>
    simp [close, invoke_transfer, Address.matches_account, commit, hopen, hnmem]

/-- Witness for C5: no accounts exist at the host, so the sweep to
owner 0 fails and the Open phase survives. -/
theorem close_transfer_failure_atomic_witness :
    close [] 0 (Address.account 0)
        ⟨⟨0, StateOfDonation.Open, ["GE", "CM", "IT", "FR"], 10000⟩, 100, []⟩ =
      Except.error (Reject.transferError TransferError.MissingAccount)
    ∧ commit ⟨⟨0, StateOfDonation.Open, ["GE", "CM", "IT", "FR"], 10000⟩, 100, []⟩
        (close [] 0 (Address.account 0)
          ⟨⟨0, StateOfDonation.Open, ["GE", "CM", "IT", "FR"], 10000⟩, 100, []⟩) =
      ⟨⟨0, StateOfDonation.Open, ["GE", "CM", "IT", "FR"], 10000⟩, 100, []⟩ := by
  have := close_transfer_failure_atomic [] 0
    ⟨⟨0, StateOfDonation.Open, ["GE", "CM", "IT", "FR"], 10000⟩, 100, []⟩ rfl (by decide)
  exact ⟨this.1, this.2.1⟩

/-- C6 counterexample: with the allow-list of the repository tests and
slot time 20000 past the deadline 10000, the location USA is not
allowed, yet `donate` does not fail with `InvalidDonationLocation` (it
fails with `DonationHasEnded`, the deadline check coming first). -/
theorem donate_invalid_location_cex :
    (["GE", "CM", "IT", "FR"] : List DonationLocation).contains "USA" = false
    ∧ donate ⟨0, StateOfDonation.Open, ["GE", "CM", "IT", "FR"], 10000⟩ 20000
        (some "USA") 7 = Except.error Error.DonationHasEnded
    ∧ donate ⟨0, StateOfDonation.Open, ["GE", "CM", "IT", "FR"], 10000⟩ 20000
        (some "USA") 7 ≠ Except.error Error.InvalidDonationLocation := by
  refine ⟨by decide, rfl, fun hc => ?_⟩
  rw [show donate ⟨0, StateOfDonation.Open, ["GE", "CM", "IT", "FR"], 10000⟩ 20000
      (some "USA") 7 = Except.error Error.DonationHasEnded from rfl] at hc
  simp at hc

/-- C6 amended: for every location outside the allow-list, provided no
earlier check rejects first (time at most the deadline and phase
Open), `donate` fails with `InvalidDonationLocation`, for every
attached value. -/
theorem donate_invalid_location_fails (st : State) (t : Timestamp)
    (loc : DonationLocation)
    (hle : ¬ st.end_time < t)
    (hop : st.state_of_donation = StateOfDonation.Open)
    (hloc : st.donation_locations.contains loc = false) :
    ∀ a : Amount, donate st t (some loc) a = Except.error Error.InvalidDonationLocation := by
  intro a
  simp [donate, hle, hop, (position_eq_none_iff st.donation_locations loc).mpr hloc]

/-- Witness for C6 amended: donating from USA at time 0 with two
different attached values. -/
theorem donate_invalid_location_fails_witness :
    donate ⟨0, StateOfDonation.Open, ["GE", "CM", "IT", "FR"], 10000⟩ 0
        (some "USA") 0 = Except.error Error.InvalidDonationLocation
    ∧ donate ⟨0, StateOfDonation.Open, ["GE", "CM", "IT", "FR"], 10000⟩ 0
        (some "USA") 100 = Except.error Error.InvalidDonationLocation := by
  have := donate_invalid_location_fails
    ⟨0, StateOfDonation.Open, ["GE", "CM", "IT", "FR"], 10000⟩ 0 "USA"
    (by decide) rfl (by decide)
  exact ⟨this 0, this 100⟩

/-- C7: owner calls on the wrong phase: `close` on Closed fails with
the phase guard and the committed host (balance included) is
unchanged; `open` on Closed succeeds and sets the phase to Open;
`open` on Open fails and the committed host is unchanged. -/
theorem wrong_phase_close_open (existing_accounts : List AccountAddress)
    (owner : AccountAddress) (h : Host) :
    (h.state.state_of_donation = StateOfDonation.Closed →
      close existing_accounts owner (Address.account owner) h =
        Except.error Reject.assertionFailed
      ∧ commit h (close existing_accounts owner (Address.account owner) h) = h)
    ∧ (h.state.state_of_donation = StateOfDonation.Closed →
      open_campaign owner (Address.account owner) h =
        Except.ok { h with state := { h.state with state_of_donation := StateOfDonation.Open } })
    ∧ (h.state.state_of_donation = StateOfDonation.Open →
      open_campaign owner (Address.account owner) h =
        Except.error Reject.assertionFailed
      ∧ commit h (open_campaign owner (Address.account owner) h) = h) := by
  refine ⟨fun hcl => ?_, fun hcl => ?_, fun hop => ?_⟩ <;>
    simp [close, open_campaign, Address.matches_account, commit, *]

/-- Witness for C7 at concrete Closed and Open hosts with owner 0. -/
theorem wrong_phase_close_open_witness :
    close [0] 0 (Address.account 0)
        ⟨⟨0, StateOfDonation.Closed, ["GE", "CM", "IT", "FR"], 10000⟩, 100, []⟩ =
      Except.error Reject.assertionFailed
    ∧ open_campaign 0 (Address.account 0)
        ⟨⟨0, StateOfDonation.Closed, ["GE", "CM", "IT", "FR"], 10000⟩, 100, []⟩ =
      Except.ok ⟨⟨0, StateOfDonation.Open, ["GE", "CM", "IT", "FR"], 10000⟩, 100, []⟩
    ∧ open_campaign 0 (Address.account 0)
        ⟨⟨0, StateOfDonation.Open, ["GE", "CM", "IT", "FR"], 10000⟩, 100, []⟩ =
      Except.error Reject.assertionFailed := by
  refine ⟨(wrong_phase_close_open [0] 0
      ⟨⟨0, StateOfDonation.Closed, ["GE", "CM", "IT", "FR"], 10000⟩, 100, []⟩).1 rfl |>.1,
    ?_, (wrong_phase_close_open [0] 0
      ⟨⟨0, StateOfDonation.Open, ["GE", "CM", "IT", "FR"], 10000⟩, 100, []⟩).2.2 rfl |>.1⟩
  have := (wrong_phase_close_open [0] 0
    ⟨⟨0, StateOfDonation.Closed, ["GE", "CM", "IT", "FR"], 10000⟩, 100, []⟩).2.1 rfl
  simpa using this

/-- Fields of the state other than the phase after a committed `close`:
all unchanged, in every branch. -/
lemma commit_close_fields (existing_accounts : List AccountAddress)
    (owner : AccountAddress) (sender : Address) (h : Host) :
    (commit h (close existing_accounts owner sender h)).state.donation_locations =
        h.state.donation_locations
    ∧ (commit h (close existing_accounts owner sender h)).state.end_time = h.state.end_time
    ∧ (commit h (close existing_accounts owner sender h)).state.number_of_donors =
        h.state.number_of_donors := by
  by_cases h1 : sender.matches_account owner <;>
    by_cases h2 : h.state.state_of_donation = StateOfDonation.Open <;>
    by_cases h3 : owner ∈ existing_accounts <;>
    simp [close, invoke_transfer, commit, h1, h2, h3]

/-- Fields of the state other than the phase after a committed `open`:
all unchanged, in every branch. -/
lemma commit_open_fields (owner : AccountAddress) (sender : Address) (h : Host) :
    (commit h (open_campaign owner sender h)).state.donation_locations =
        h.state.donation_locations
    ∧ (commit h (open_campaign owner sender h)).state.end_time = h.state.end_time
    ∧ (commit h (open_campaign owner sender h)).state.number_of_donors =
        h.state.number_of_donors := by
  by_cases h1 : sender.matches_account owner <;>
    by_cases h2 : h.state.state_of_donation = StateOfDonation.Closed <;>
    simp [open_campaign, commit, h1, h2]

/-- C8: no entrypoint ever changes `donation_locations`, `end_time` or
`number_of_donors`: the committed state after `donate`, `close` and
`open` keeps all three fields, and `view` reports exactly the stored
`number_of_donors`, `end_time` and balance without any state output at
all (it is a pure read in the embedding, as in the source). -/
theorem fields_never_mutated (st : State) (t : Timestamp)
    (p : Option DonationLocation) (a : Amount)
    (existing_accounts : List AccountAddress) (owner : AccountAddress)
    (sender : Address) (h : Host) :
    (commit st (donate st t p a)).donation_locations = st.donation_locations
    ∧ (commit st (donate st t p a)).end_time = st.end_time
    ∧ (commit st (donate st t p a)).number_of_donors = st.number_of_donors
    ∧ (commit h (close existing_accounts owner sender h)).state.donation_locations =
        h.state.donation_locations
    ∧ (commit h (close existing_accounts owner sender h)).state.end_time = h.state.end_time
    ∧ (commit h (close existing_accounts owner sender h)).state.number_of_donors =
        h.state.number_of_donors
    ∧ (commit h (open_campaign owner sender h)).state.donation_locations =
        h.state.donation_locations
    ∧ (commit h (open_campaign owner sender h)).state.end_time = h.state.end_time
    ∧ (commit h (open_campaign owner sender h)).state.number_of_donors =
        h.state.number_of_donors
    ∧ (view h).number_donors = h.state.number_of_donors
    ∧ (view h).time = h.state.end_time := by
  obtain ⟨c1, c2, c3⟩ := commit_close_fields existing_accounts owner sender h
  obtain ⟨o1, o2, o3⟩ := commit_open_fields owner sender h
  rw [commit_donate]
  exact ⟨rfl, rfl, rfl, c1, c2, c3, o1, o2, o3, rfl, rfl⟩

/-- C9: round trip by the owner from an Open host: `close` succeeds
(sweeping the balance) and `open` on the result succeeds, restoring
the exact initial state record while the balance stays swept at
zero. -/
theorem close_then_open_roundtrip (existing_accounts : List AccountAddress)
    (owner : AccountAddress) (h : Host)
    (hopen : h.state.state_of_donation = StateOfDonation.Open)
    (hacct : existing_accounts.contains owner = true) :
    close existing_accounts owner (Address.account owner) h =
      Except.ok ⟨{ h.state with state_of_donation := StateOfDonation.Closed }, 0,
        h.transfers ++ [(owner, h.self_balance)]⟩
    ∧ open_campaign owner (Address.account owner)
        ⟨{ h.state with state_of_donation := StateOfDonation.Closed }, 0,
          h.transfers ++ [(owner, h.self_balance)]⟩ =
      Except.ok ⟨h.state, 0, h.transfers ++ [(owner, h.self_balance)]⟩ := by
  obtain ⟨⟨n, sd, dl, et⟩, bal, tr⟩ := h
  have hsd : sd = StateOfDonation.Open := hopen
  subst hsd
  have hmem : owner ∈ existing_accounts := by simpa using hacct
  constructor <;>
    simp [close, open_campaign, Address.matches_account, invoke_transfer, hmem]

/-- Witness for C9 at the repository test scenario (owner 0, balance
100): after `close` then `open` the state record is back to its
initial value and the balance is zero. -/
theorem close_then_open_roundtrip_witness :
    close [0] 0 (Address.account 0)
        ⟨⟨0, StateOfDonation.Open, ["GE", "CM", "IT", "FR"], 10000⟩, 100, []⟩ =
      Except.ok ⟨⟨0, StateOfDonation.Closed, ["GE", "CM", "IT", "FR"], 10000⟩, 0, [(0, 100)]⟩
    ∧ open_campaign 0 (Address.account 0)
        ⟨⟨0, StateOfDonation.Closed, ["GE", "CM", "IT", "FR"], 10000⟩, 0, [(0, 100)]⟩ =
      Except.ok ⟨⟨0, StateOfDonation.Open, ["GE", "CM", "IT", "FR"], 10000⟩, 0, [(0, 100)]⟩ := by
  have := close_then_open_roundtrip [0] 0
    ⟨⟨0, StateOfDonation.Open, ["GE", "CM", "IT", "FR"], 10000⟩, 100, []⟩ rfl (by decide)
  simpa using this

/-- C10: the result of `donate` (error or returned state) does not
depend on the attached amount: two calls differing only in the
attached value agree exactly, so in particular there is no
minimum-amount check and zero-value calls are treated like any
other. -/
theorem donate_amount_independent (st : State) (t : Timestamp)
    (p : Option DonationLocation) (a1 a2 : Amount) :
    donate st t p a1 = donate st t p a2 := rfl

end Donation
